import Mathlib

/-!
Verification development for the pdf-tools backend (src/backend/server.js).

The definitions below are a shallow embedding of the freemium
access-control / usage-accounting engine and of the PDF repair
diagnostic engine of the server.  Machine integers are modelled as
`Nat`/`Int`, JavaScript `Map`s as association lists, timestamps as
millisecond integers, and fallible request handlers as `Except`-valued
functions.  External effects (the PDF library, the file system, the
HTTP layer) are inputs to the model: a boolean per external call says
whether that call succeeds, mirroring the try/catch structure of the
source.
-/

namespace PdfTools

/-! ## Session store (server.js lines 19-45) -/

/-- A user session, as stored in the `userSessions` map:
`{ usage: {merge:0,...}, premiumUntil: null, createdAt: new Date() }`.
The usage object is modelled as a total function from tool names to
counts (absent keys read as 0, matching `session.usage[tool] || 0`). -/
structure Session where
  usage : String → Nat
  premiumUntil : Option Int
  createdAt : Int

/-- Check premium access (server.js line 43):
`session.premiumUntil && new Date() < session.premiumUntil`.
A `null` expiry is falsy; otherwise the comparison `now < premiumUntil`
decides. -/
def hasPremiumAccess (now : Int) (s : Session) : Bool :=
  match s.premiumUntil with
  | none => false
  | some t => decide (now < t)

/-- One hour in milliseconds. -/
def hourMs : Int := 3600000

/-- Grant premium for a number of hours (the
`premiumExpiry.setHours(premiumExpiry.getHours() + 24)` pattern of the
payment-capture and code-activation handlers): the expiry is
overwritten, never stacked. -/
def grantPremium (now : Int) (hours : Int) (s : Session) : Session :=
  { s with premiumUntil := some (now + hours * hourMs) }

/-- A fresh zero-usage, non-premium session as minted by
`getUserSession` (server.js lines 32-36). -/
def freshSession (now : Int) : Session :=
  { usage := fun _ => 0, premiumUntil := none, createdAt := now }

/-! ## Tool configuration (server.js lines 59-66) -/

/-- Static per-tool configuration: `{ requiresPremium, freeLimit }`,
with `freeLimit = none` modelling `null` (unlimited). -/
structure ToolConfig where
  requiresPremium : Bool
  freeLimit : Option Nat
deriving DecidableEq, Repr

/-- The `toolConfigs` table (server.js lines 59-66); lookup of an
unknown tool name yields `none` (the `if (!config)` rejection path). -/
def toolConfigs : String → Option ToolConfig
  | "merge" => some ⟨false, none⟩
  | "compress" => some ⟨false, none⟩
  | "split" => some ⟨false, some 5⟩
  | "edit" => some ⟨false, some 2⟩
  | "repair" => some ⟨false, some 2⟩
  | "convert" => some ⟨false, none⟩
  | _ => none

/-! ## The /api/process-pdf handler (server.js lines 1065-1236) -/

/-- Error outcomes of the process endpoint, in the order the handler
checks them. -/
inductive ProcessError
  | noFiles
  | noTool
  | invalidTool
  | quotaExhausted (used limit : Nat)
  | premiumRequired (format : String)
  | processingFailure
deriving DecidableEq, Repr

/-- HTTP status code attached to each error response by the handler. -/
def httpStatus : ProcessError → Nat
  | .noFiles => 400
  | .noTool => 400
  | .invalidTool => 400
  | .quotaExhausted _ _ => 403
  | .premiumRequired _ => 403
  | .processingFailure => 500

/-- The success response fields relevant to the quota engine:
`remainingUses` is `Math.max(0, freeLimit - usage[tool])` when the tool
has a finite limit, `null` otherwise (server.js line 1206). -/
structure ProcessResponse where
  remainingUses : Option Nat
deriving DecidableEq, Repr

/-- The premium-only convert sub-formats (server.js line 1103). -/
def premiumFormats : List String := ["powerpoint", "images"]

/-- Shallow embedding of the `/api/process-pdf` handler body
(server.js lines 1065-1236).  `files` is the number of uploaded files,
`opSucceeds` tells whether the selected processing function returns a
result (rather than throwing, which the handler surfaces as a 500).
Returns the response outcome together with the session after the
request; every rejection and the catch block leave the session as it
was, and the usage increment (line 1187) runs only on success and only
when `!isPremium && config.freeLimit !== null`. -/
def processPdf (now : Int) (session : Session) (files : Nat)
    (toolField convertTo : Option String) (opSucceeds : Bool) :
    Except ProcessError ProcessResponse × Session :=
  if files = 0 then (.error .noFiles, session) else
  match toolField with
  | none => (.error .noTool, session)
  | some tool =>
    match toolConfigs tool with
    | none => (.error .invalidTool, session)
    | some config =>
      let isPremium := hasPremiumAccess now session
      let currentUsage := session.usage tool
      let afterQuota : Except ProcessError ProcessResponse × Session :=
        if tool = "convert" && !isPremium &&
            (Option.any (fun f => premiumFormats.contains f) convertTo) then
          (.error (.premiumRequired (convertTo.getD "")), session)
        else if !opSucceeds then
          (.error .processingFailure, session)
        else
          let session' :=
            if !isPremium && config.freeLimit.isSome then
              { session with usage := Function.update session.usage tool (currentUsage + 1) }
            else session
          let remaining := config.freeLimit.map (fun l => l - session'.usage tool)
          (.ok ⟨remaining⟩, session')
      match config.freeLimit with
      | some limit =>
        if !isPremium && decide (limit ≤ currentUsage) then
          (.error (.quotaExhausted currentUsage limit), session)
        else afterQuota
      | none => afterQuota

/-- Iterate `n` successful processing requests for one tool against the
same session (each step feeds the returned session into the next
request), modelling a sequence of requests from one client. -/
def runRequests (now : Int) (s : Session) (tool : String) : Nat → Session
  | 0 => s
  | n + 1 => runRequests now (processPdf now s 1 (some tool) none true).2 tool n

/-! ## Code registry and premium activation (server.js lines 47-56, 1296-1398) -/

/-- A generated premium code's registry entry, as stored in the
`generatedCodes` map. -/
structure CodeData where
  userId : String
  createdAt : Int
  used : Bool
  activatedBy : Option String
  activatedAt : Option Int
  paypalOrderId : Option String
  paypalPayerId : Option String
deriving DecidableEq, Repr

/-- The `generatedCodes` map, as an association list from code string
to entry; insertion conses, lookup takes the first match. -/
abbrev CodeStore := List (String × CodeData)

/-- Map lookup (`generatedCodes.get` / `generatedCodes.has`). -/
def lookupCode (codes : CodeStore) (key : String) : Option CodeData :=
  match codes with
  | [] => none
  | (c, d) :: rest => if c = key then some d else lookupCode rest key

/-- In-place update of one entry, modelling the
`codeData.activatedBy = ...` object mutation on the map's entry; keys
are untouched. -/
def updateCode (codes : CodeStore) (key : String) (f : CodeData → CodeData) : CodeStore :=
  codes.map fun e => if e.1 = key then (e.1, f e.2) else e

/-- The normalization `code.toUpperCase().trim()` applied to submitted
codes (server.js line 1365), modelled character-wise over the string's
character list so that it evaluates inside the kernel: uppercase every
character, then drop whitespace from both ends. -/
def normalizeCode (s : String) : String :=
  String.mk ((((s.data.map Char.toUpper).dropWhile Char.isWhitespace).reverse.dropWhile
    Char.isWhitespace).reverse)

/-- The predefined demo codes (server.js line 1364). -/
def validCodes : List String := ["PREMIUM24H", "TESTCODE123", "LAUNCH2024", "DEMO2024"]

/-- Whether a submitted code is recognized
(`isValidPredefinedCode || isGeneratedCode`, server.js lines 1367-1370). -/
def recognizedCode (codes : CodeStore) (code : String) : Bool :=
  validCodes.contains (normalizeCode code) || (lookupCode codes (normalizeCode code)).isSome

/-- Activation failure outcome (HTTP 400 `Invalid premium code`). -/
inductive ActivateError
  | invalidCode
deriving DecidableEq, Repr

/-- Shallow embedding of the `/api/activate-premium-code` handler
(server.js lines 1358-1398).  On a recognized code the session gets
`premiumUntil = now + 24h` and, for a generated code, the registry
entry is updated in place (`activatedBy`, `activatedAt`, `used = true`)
— the entry is never removed.  On an unrecognized code the handler
responds 400 and touches neither the session nor the registry.  The
returned `Int` is the granted expiry timestamp. -/
def activatePremiumCode (now : Int) (codes : CodeStore) (userId : String)
    (session : Session) (code : String) :
    Except ActivateError Int × Session × CodeStore :=
  let codeUpper := normalizeCode code
  let isGeneratedCode := (lookupCode codes codeUpper).isSome
  let isValidPredefinedCode := validCodes.contains codeUpper
  if isValidPredefinedCode || isGeneratedCode then
    let premiumExpiry := now + 24 * hourMs
    let session' := { session with premiumUntil := some premiumExpiry }
    let codes' :=
      if isGeneratedCode then
        updateCode codes codeUpper fun d =>
          { d with activatedBy := some userId, activatedAt := some now, used := true }
      else codes
    (.ok premiumExpiry, session', codes')
  else
    (.error .invalidCode, session, codes)

/-! ## Payment capture (server.js lines 1296-1355) -/

/-- Validation failures of the payment-capture handler. -/
inductive CaptureError
  | paymentNotCompleted
  | invalidAmount
deriving DecidableEq, Repr

/-- Success payload of the capture handler: the updated session, the
registry extended with the freshly generated code (stored with
`used = true` and payment provenance), and the granted expiry. -/
structure CaptureOk where
  session : Session
  codes : CodeStore
  premiumUntil : Int

/-- Shallow embedding of the `/api/capture-paypal-payment` handler
(server.js lines 1296-1355).  `status` is
`paymentDetails?.status` and `amount` is the captured amount string
drawn from the payment details; either may be absent.  The handler
rejects unless `status` is exactly `"COMPLETED"`, then rejects unless
`amount` is exactly the string `"2.00"`; only then does it grant 24
hours of premium and register `newCode` as used. -/
def capturePaypalPayment (now : Int) (codes : CodeStore) (session : Session)
    (userId orderId payerId : String) (status amount : Option String)
    (newCode : String) : Except CaptureError CaptureOk :=
  if status ≠ some "COMPLETED" then
    .error .paymentNotCompleted
  else if amount ≠ some "2.00" then
    .error .invalidAmount
  else
    let premiumExpiry := now + 24 * hourMs
    let session' := { session with premiumUntil := some premiumExpiry }
    let entry : CodeData :=
      { userId := userId, createdAt := now, used := true,
        activatedBy := none, activatedAt := none,
        paypalOrderId := some orderId, paypalPayerId := some payerId }
    .ok ⟨session', (newCode, entry) :: codes, premiumExpiry⟩

/-! ## PDF repair diagnostic engine (server.js lines 354-627) -/

/-- Which load strategy produced the document (`loadMethod`). -/
inductive LoadMethod
  | standard
  | recovery
  | careful
deriving DecidableEq, Repr

/-- Abstract description of one page of the loaded document, as the
repair loop observes it.  `broken` says whether inspecting the page
(`page.getSize()` etc.) throws; `recreateFails` says whether the
premium recreation attempt (`insertPage`/`drawText`/`removePage`)
throws.  Dimensions and rotation are the values the inspection would
return when it does not throw. -/
structure PageDesc where
  broken : Bool
  width : Int
  height : Int
  rotation : Int
  recreateFails : Bool
deriving DecidableEq, Repr

/-- Abstract description of the repair engine's input: the outcome of
each load strategy on the uploaded bytes, the document metadata, the
pages, and whether the premium standard-font embedding succeeds. -/
structure RepairInput where
  standardLoadOk : Bool
  recoveryLoadOk : Bool
  carefulLoadOk : Bool
  title : Option String
  author : Option String
  pages : List PageDesc
  fontEmbedOk : Bool
deriving DecidableEq, Repr

/-- One entry of `repairLog`, one constructor per `repairLog.push`
site of the source, carrying the data interpolated into the message. -/
inductive RepairLogEntry
  | standardLoadingFailed
  | loadedRecoveryMode
  | loadedCarefulMode
  | documentContains (pages : Nat)
  | cleanedTitle
  | cleanedAuthor
  | fixedWidth (page : Nat)
  | fixedHeight (page : Nat)
  | fixedRotation (page : Nat) (oldAngle newAngle : Int)
  | structuralIssues (page : Nat)
  | recreatedPage (page : Nat)
  | couldNotRecreate (page : Nat)
  | embeddedFonts
  | fontEmbedFailed
  | addedReportPage
deriving DecidableEq, Repr

/-- Terminal failures of the repair engine, both surfaced by the
handler as a `ProcessingFailure` (HTTP 500) with the diagnostic
counters embedded in the message. -/
inductive RepairError
  | severelyCorrupted
  | noValidPages
deriving DecidableEq, Repr

/-- The `repairStats` object of a successful repair.  `sizeChange`
depends on the byte sizes of the saved buffers, which are external to
this model, and is omitted. -/
structure RepairStats where
  issuesFound : Nat
  issuesFixed : Nat
  pagesRepaired : Nat
  totalPages : Nat
  loadMethod : LoadMethod
  repairLog : List RepairLogEntry
deriving DecidableEq, Repr

/-- Result of a successful repair: the pages of the repaired document
and the diagnostic report. -/
structure RepairResult where
  pages : List PageDesc
  repairStats : RepairStats
deriving DecidableEq, Repr

/-- Outcome of the load cascade: the method that succeeded, the log
entries pushed while loading, and the issue counters accumulated so
far. -/
structure LoadOutcome where
  loadMethod : LoadMethod
  log : List RepairLogEntry
  found : Nat
  fixed : Nat
deriving DecidableEq, Repr

/-- The nested try/catch load cascade (server.js lines 361-394):
standard parse first; on failure push a log line and bump
`issuesFound`, then recovery parse (`ignoreEncryption`); then the
careful slow parse; `none` when all three throw (the
`severely corrupted` abort). -/
def loadWithStrategies (input : RepairInput) : Option LoadOutcome :=
  if input.standardLoadOk then
    some ⟨.standard, [], 0, 0⟩
  else if input.recoveryLoadOk then
    some ⟨.recovery, [.standardLoadingFailed, .loadedRecoveryMode], 1, 1⟩
  else if input.carefulLoadOk then
    some ⟨.careful, [.standardLoadingFailed, .loadedCarefulMode], 1, 1⟩
  else
    none

/-- Whether a metadata string triggers the sanitization
(`title && title.includes('\0')`): present, non-empty (the empty
string is falsy), and containing an embedded null character. -/
def metadataCorrupt : Option String → Bool
  | none => false
  | some t => (!(t = "")) && t.data.any (fun c => c = Char.ofNat 0)

/-- The rotation normalization `Math.round(rotation.angle / 90) * 90`
(server.js line 455).  `Math.round x` is the floor of `x + 1/2` (ties
round toward positive infinity), so on an integer angle the result is
the floor of `(angle + 45) / 90`, times 90; `/` here is Euclidean
integer division, which is floor division for the positive divisor. -/
def jsRound90 (angle : Int) : Int :=
  ((angle + 45) / 90) * 90

/-- The per-iteration contribution of the page validation loop:
counter deltas, the `validPages` contribution, the log entries pushed,
and the page as it ends up in the document. -/
structure PageStep where
  found : Nat
  fixed : Nat
  repaired : Nat
  valid : Nat
  log : List RepairLogEntry
  outPages : List PageDesc
deriving DecidableEq, Repr

/-- The body of the page validation loop (server.js lines 427-493) for
page index `i` (0-based; messages use `i + 1`).  A page whose
inspection throws is logged as a structural issue; under premium an
aggressive recreation replaces it with a blank letter-size page, and
only a throwing recreation leaves it broken.  An inspectable page gets
its dimensions clamped (each bad dimension is one found+fixed issue;
both `setSize` calls read the original width/height) and its rotation
normalized when not a multiple of 90; `validPages` counts exactly the
pages whose inspection did not throw. -/
def repairPage (isPremium : Bool) (i : Nat) (p : PageDesc) : PageStep :=
  if p.broken then
    if isPremium then
      if p.recreateFails then
        ⟨1, 0, 0, 0, [.structuralIssues (i + 1), .couldNotRecreate (i + 1)], [p]⟩
      else
        ⟨1, 1, 1, 0, [.structuralIssues (i + 1), .recreatedPage (i + 1)],
          [⟨false, 612, 792, 0, false⟩]⟩
    else
      ⟨1, 0, 0, 0, [.structuralIssues (i + 1)], [p]⟩
  else
    let widthBad := decide (p.width ≤ 0) || decide (14400 < p.width)
    let heightBad := decide (p.height ≤ 0) || decide (14400 < p.height)
    let dims : Int × Int :=
      if widthBad || heightBad then
        let afterWidth :=
          if widthBad then
            ((612 : Int), if decide (0 < p.height) && decide (p.height ≤ 14400) then p.height else 792)
          else (p.width, p.height)
        if heightBad then
          ((if decide (0 < p.width) && decide (p.width ≤ 14400) then p.width else 612 : Int), (792 : Int))
        else afterWidth
      else (p.width, p.height)
    let dimCount : Nat := (if widthBad then 1 else 0) + (if heightBad then 1 else 0)
    let dimLog : List RepairLogEntry :=
      (if widthBad then [.fixedWidth (i + 1)] else []) ++
      (if heightBad then [.fixedHeight (i + 1)] else [])
    let rotBad := decide (p.rotation % 90 ≠ 0)
    let newAngle := jsRound90 p.rotation
    let rotCount : Nat := if rotBad then 1 else 0
    let rotLog : List RepairLogEntry :=
      if rotBad then [.fixedRotation (i + 1) p.rotation newAngle] else []
    let rotation := if rotBad then newAngle else p.rotation
    ⟨dimCount + rotCount, dimCount + rotCount, dimCount + rotCount, 1,
      dimLog ++ rotLog, [⟨false, dims.1, dims.2, rotation, p.recreateFails⟩]⟩

/-- Fold of `repairPage` over the page snapshot, starting at index `i`
(the loop `for (let i = 0; i < pages.length; i++)`); deltas add up and
logs and output pages concatenate in order. -/
def repairPages (isPremium : Bool) (i : Nat) : List PageDesc → PageStep
  | [] => ⟨0, 0, 0, 0, [], []⟩
  | p :: rest =>
    let s := repairPage isPremium i p
    let t := repairPages isPremium (i + 1) rest
    ⟨s.found + t.found, s.fixed + t.fixed, s.repaired + t.repaired,
      s.valid + t.valid, s.log ++ t.log, s.outPages ++ t.outPages⟩

/-- The page appended by the premium repair report
(`pdfDoc.addPage([612, 792])`). -/
def reportPage : PageDesc := ⟨false, 612, 792, 0, false⟩

/-- Shallow embedding of `repairPDFEnhanced` (server.js lines
354-627).  Steps, in source order: the load cascade (abort
`SeverelyCorrupted` when all strategies fail); the page-count log
line; metadata sanitization (title, then author, each one found+fixed
issue); the page validation loop; the premium standard-font embedding
(log only); the `validPages === 0` check (abort `NoValidPages`);
finally, for premium with any issues found or pages repaired, the
trailing repair-report page and its log line. -/
def repairPDFEnhanced (isPremium : Bool) (input : RepairInput) :
    Except RepairError RepairResult :=
  match loadWithStrategies input with
  | none => .error .severelyCorrupted
  | some load =>
    let originalPageCount := input.pages.length
    let titleBad := metadataCorrupt input.title
    let authorBad := metadataCorrupt input.author
    let metaCount : Nat := (if titleBad then 1 else 0) + (if authorBad then 1 else 0)
    let metaLog : List RepairLogEntry :=
      (if titleBad then [.cleanedTitle] else []) ++ (if authorBad then [.cleanedAuthor] else [])
    let step := repairPages isPremium 0 input.pages
    let issuesFound := load.found + metaCount + step.found
    let issuesFixed := load.fixed + metaCount + step.fixed
    let repairedPages := step.repaired
    let validPages := step.valid
    let fontLog : List RepairLogEntry :=
      if isPremium then (if input.fontEmbedOk then [.embeddedFonts] else [.fontEmbedFailed]) else []
    if validPages = 0 then
      .error .noValidPages
    else
      let addReport := isPremium && (decide (0 < issuesFound) || decide (0 < repairedPages))
      let log := load.log ++ [.documentContains originalPageCount] ++ metaLog ++
        step.log ++ fontLog ++ (if addReport then [.addedReportPage] else [])
      let outPages := step.outPages ++ (if addReport then [reportPage] else [])
      .ok ⟨outPages, ⟨issuesFound, issuesFixed, repairedPages, originalPageCount,
        load.loadMethod, log⟩⟩

/-! ## Helper lemmas about the process endpoint -/

/-- Premium status depends only on the `premiumUntil` field. -/
theorem hasPremiumAccess_congr (now : Int) (s s' : Session)
    (h : s'.premiumUntil = s.premiumUntil) :
    hasPremiumAccess now s' = hasPremiumAccess now s := by
  unfold hasPremiumAccess
  rw [h]

/-- The process handler never touches the premium expiry. -/
theorem processPdf_premiumUntil (now : Int) (s : Session) (files : Nat)
    (toolField conv : Option String) (op : Bool) :
    (processPdf now s files toolField conv op).2.premiumUntil = s.premiumUntil := by
  unfold processPdf
  dsimp only
  split
  · rfl
  · split
    · rfl
    · split
      · rfl
      · split
        · split
          · rfl
          · split
            · rfl
            · split
              · rfl
              · split <;> rfl
        · split
          · rfl
          · split
            · rfl
            · split <;> rfl

/-- A successful request from a non-premium session under a finite
ceiling with spare quota: the handler accepts and bumps the tool's
counter by one. -/
theorem processPdf_success_step (now : Int) (s : Session) (t : String)
    (c : ToolConfig) (L : Nat) (hc : toolConfigs t = some c)
    (hL : c.freeLimit = some L) (hp : hasPremiumAccess now s = false)
    (hu : s.usage t < L) :
    processPdf now s 1 (some t) none true =
      (.ok ⟨some (L - (s.usage t + 1))⟩,
        { s with usage := Function.update s.usage t (s.usage t + 1) }) := by
  unfold processPdf
  simp only [hc, hL, hp, Option.any_none, Option.isSome_some, Bool.and_false,
    Bool.not_false, Bool.and_true, Bool.true_and, Option.map_some]
  rw [if_neg (by omega), if_neg (by simp [Nat.not_le.mpr hu]), if_neg (by simp)]
  simp [Function.update_same]

/-- Over a run of successful requests below the ceiling, the tool's
usage counter accumulates one per request and the premium expiry is
untouched. -/
theorem runRequests_usage (now : Int) (t : String) (c : ToolConfig) (L : Nat)
    (hc : toolConfigs t = some c) (hL : c.freeLimit = some L) :
    ∀ (k : Nat) (s : Session), hasPremiumAccess now s = false →
      s.usage t + k ≤ L →
      (runRequests now s t k).usage t = s.usage t + k ∧
      (runRequests now s t k).premiumUntil = s.premiumUntil := by
  intro k
  induction k with
  | zero =>
    intro s hp hk
    exact ⟨by simp [runRequests], rfl⟩
  | succ n ih =>
    intro s hp hk
    have hu : s.usage t < L := by omega
    have hstep := processPdf_success_step now s t c L hc hL hp hu
    have hp' : hasPremiumAccess now
        { s with usage := Function.update s.usage t (s.usage t + 1) } = false := hp
    have hrec := ih { s with usage := Function.update s.usage t (s.usage t + 1) } hp'
      (by simp only [Function.update_same]; omega)
    simp only [Function.update_same] at hrec
    unfold runRequests
    rw [hstep]
    exact ⟨by rw [hrec.1]; omega, hrec.2⟩

/-- C1: for a tool with a finite free ceiling and a non-premium
session, the process request is rejected with QuotaExhausted (HTTP
403, reporting used/ceiling) exactly when the session's usage count
has reached the ceiling; starting from a zero count, after the
ceiling's worth of successful operations the next request is rejected,
and the same request is permitted again once grantPremium has been
applied to the session. -/
theorem quota_enforcement (now : Int) (s : Session) (t : String) (c : ToolConfig)
    (L files : Nat) (conv : Option String) (op : Bool)
    (hc : toolConfigs t = some c) (hL : c.freeLimit = some L)
    (hp : hasPremiumAccess now s = false) (hf : files ≠ 0) :
    ((processPdf now s files (some t) conv op).1 =
        .error (.quotaExhausted (s.usage t) L) ↔ L ≤ s.usage t)
    ∧ httpStatus (.quotaExhausted (s.usage t) L) = 403
    ∧ (s.usage t = 0 →
        (processPdf now (runRequests now s t L) 1 (some t) none true).1 =
          .error (.quotaExhausted L L))
    ∧ (∀ hours : Int, 0 < hours →
        ∃ r, (processPdf now (grantPremium now hours s) files (some t) none true).1 =
          Except.ok r) := by
  refine ⟨⟨fun heq => ?_, fun hq => ?_⟩, rfl, fun h0 => ?_, fun hours hh => ?_⟩
  · by_contra hq
    unfold processPdf at heq
    simp only [hc, hL, hp, if_neg hf, Bool.not_false, Bool.true_and,
      decide_eq_false hq, if_false] at heq
    split at heq
    · simp_all
    · split at heq
      · simp at heq
      · split at heq
        · simp at heq
        · simp at heq
  · unfold processPdf
    simp [hf, hc, hL, hp, hq]
  · obtain ⟨hu, hpu⟩ := runRequests_usage now t c L hc hL L s hp (by omega)
    have hp2 : hasPremiumAccess now (runRequests now s t L) = false := by
      rw [hasPremiumAccess_congr now s (runRequests now s t L) hpu]
      exact hp
    unfold processPdf
    simp [hc, hL, hp2, hu, h0]
  · have hpg : hasPremiumAccess now (grantPremium now hours s) = true := by
      simp only [hasPremiumAccess, grantPremium, decide_eq_true_eq]
      have : (0 : Int) < hours * hourMs := by
        have : (0 : Int) < hourMs := by norm_num [hourMs]
        positivity
      omega
    unfold processPdf
    simp [hf, hc, hL, hpg]

/-- Witness for C1: the repair tool (ceiling 2) on a fresh session at
time 0 — the reject-iff characterization, the 403 status, rejection of
the third request after two successes, and permission after a 24-hour
premium grant. -/
theorem quota_enforcement_witness :
    ((processPdf 0 (freshSession 0) 1 (some "repair") none true).1 =
        .error (.quotaExhausted ((freshSession 0).usage "repair") 2) ↔
        2 ≤ (freshSession 0).usage "repair")
    ∧ httpStatus (.quotaExhausted ((freshSession 0).usage "repair") 2) = 403
    ∧ (processPdf 0 (runRequests 0 (freshSession 0) "repair" 2) 1 (some "repair") none true).1 =
        .error (.quotaExhausted 2 2)
    ∧ ∃ r, (processPdf 0 (grantPremium 0 24 (freshSession 0)) 1 (some "repair") none true).1 =
        Except.ok r := by
  obtain ⟨h1, h2, h3, h4⟩ := quota_enforcement 0 (freshSession 0) "repair" ⟨false, some 2⟩
    2 1 none true (by decide) (by decide) (by decide) (by decide)
  exact ⟨h1, h2, h3 rfl, h4 24 (by decide)⟩

/-- Every branch of the process handler either leaves the session
untouched or reports success. -/
theorem processPdf_cases (now : Int) (s : Session) (files : Nat)
    (toolField conv : Option String) (op : Bool) :
    (processPdf now s files toolField conv op).2 = s ∨
    ∃ r, (processPdf now s files toolField conv op).1 = Except.ok r := by
  unfold processPdf
  dsimp only
  split
  · exact Or.inl rfl
  · split
    · exact Or.inl rfl
    · split
      · exact Or.inl rfl
      · split
        · split
          · exact Or.inl rfl
          · split
            · exact Or.inl rfl
            · split
              · exact Or.inl rfl
              · exact Or.inr ⟨_, rfl⟩
        · split
          · exact Or.inl rfl
          · split
            · exact Or.inl rfl
            · exact Or.inr ⟨_, rfl⟩

/-- C2: a processing request that fails — whether by a validation
rejection or by a processing error surfaced as a 500 — leaves the
session exactly as it was before the request; in particular no usage
counter moves and a failed operation never consumes quota. -/
theorem failed_request_preserves_session (now : Int) (s : Session) (files : Nat)
    (toolField conv : Option String) (op : Bool) (e : ProcessError)
    (h : (processPdf now s files toolField conv op).1 = .error e) :
    (processPdf now s files toolField conv op).2 = s := by
  rcases processPdf_cases now s files toolField conv op with h2 | ⟨r, hr⟩
  · exact h2
  · rw [hr] at h
    exact absurd h (by simp)

/-- Witness for C2: a repair request whose processing throws (a 500)
leaves a session with one recorded use exactly as it was. -/
theorem failed_request_preserves_session_witness :
    (processPdf 0 (runRequests 0 (freshSession 0) "repair" 1) 1 (some "repair") none false).2 =
      runRequests 0 (freshSession 0) "repair" 1 :=
  failed_request_preserves_session 0 (runRequests 0 (freshSession 0) "repair" 1) 1
    (some "repair") none false .processingFailure rfl

/-- C3 counterexample: the claim says every successful request
increments the requested tool's counter by one regardless of premium
status or of the tool's free limit being finite; the code increments
only when the session is non-premium and the limit is finite.  A
premium session's successful split request and a non-premium session's
successful merge request (unlimited tool) both leave the counter at
zero. -/
theorem usage_increment_counterexample :
    (processPdf 0 (grantPremium 0 24 (freshSession 0)) 1 (some "split") none true).1 =
      .ok ⟨some 5⟩
    ∧ (processPdf 0 (grantPremium 0 24 (freshSession 0)) 1 (some "split") none true).2.usage
        "split" = 0
    ∧ (processPdf 0 (grantPremium 0 24 (freshSession 0)) 1 (some "split") none true).2.usage
        "split" ≠ (grantPremium 0 24 (freshSession 0)).usage "split" + 1
    ∧ (processPdf 0 (freshSession 0) 1 (some "merge") none true).1 = .ok ⟨none⟩
    ∧ (processPdf 0 (freshSession 0) 1 (some "merge") none true).2.usage "merge" = 0 := by
  refine ⟨rfl, by decide, by decide, rfl, by decide⟩

/-- On success, the session after the request is the input session
with the tool's counter bumped when the session is non-premium and the
tool's limit is finite, and the input session unchanged otherwise. -/
theorem processPdf_ok_snd (now : Int) (s : Session) (files : Nat)
    (t : String) (conv : Option String) (op : Bool) (r : ProcessResponse)
    (h : (processPdf now s files (some t) conv op).1 = .ok r) :
    (processPdf now s files (some t) conv op).2 =
      if (!hasPremiumAccess now s &&
          Option.any (fun cfg => cfg.freeLimit.isSome) (toolConfigs t)) = true then
        { s with usage := Function.update s.usage t (s.usage t + 1) }
      else s := by
  set P := processPdf now s files (some t) conv op with hP
  unfold processPdf at hP
  dsimp only at hP
  split at hP
  · rw [hP] at h
    simp at h
  · split at hP
    · rw [hP] at h
      simp at h
    · rename_i config heq
      split at hP
      · rename_i limit heq2
        split at hP
        · rw [hP] at h
          simp at h
        · split at hP
          · rw [hP] at h
            simp at h
          · split at hP
            · rw [hP] at h
              simp at h
            · rw [hP]
              simp [heq]
      · rename_i heq2
        split at hP
        · rw [hP] at h
          simp at h
        · split at hP
          · rw [hP] at h
            simp at h
          · rw [hP]
            simp [heq]

/-- C3 as amended: on a successful processing request the session's
counter for the requested tool is incremented by exactly one when the
session is non-premium and the tool's free limit is finite (other
tools' counters and the premium expiry untouched); for a premium
session or an unlimited tool the session is left entirely unchanged. -/
theorem usage_increment_on_success (now : Int) (s : Session) (files : Nat)
    (t : String) (conv : Option String) (op : Bool) (r : ProcessResponse)
    (h : (processPdf now s files (some t) conv op).1 = .ok r) :
    (hasPremiumAccess now s = false ∧
        Option.any (fun cfg => cfg.freeLimit.isSome) (toolConfigs t) = true →
      (processPdf now s files (some t) conv op).2.usage t = s.usage t + 1
      ∧ (∀ u, u ≠ t → (processPdf now s files (some t) conv op).2.usage u = s.usage u)
      ∧ (processPdf now s files (some t) conv op).2.premiumUntil = s.premiumUntil)
    ∧ (hasPremiumAccess now s = true ∨
        Option.any (fun cfg => cfg.freeLimit.isSome) (toolConfigs t) = false →
      (processPdf now s files (some t) conv op).2 = s) := by
  have hch := processPdf_ok_snd now s files t conv op r h
  constructor
  · rintro ⟨hp, hfin⟩
    rw [hch, if_pos (by simp [hp, hfin])]
    exact ⟨Function.update_same t (s.usage t + 1) s.usage,
      fun u hu => Function.update_noteq hu (s.usage t + 1) s.usage, rfl⟩
  · rintro (hp | hfin)
    · rw [hch, if_neg (by simp [hp])]
    · rw [hch, if_neg (by simp [hfin])]

/-- Witness for C3 as amended: a fresh non-premium session's first
successful repair request takes the repair counter from 0 to 1. -/
theorem usage_increment_on_success_witness :
    (processPdf 0 (freshSession 0) 1 (some "repair") none true).2.usage "repair" =
      (freshSession 0).usage "repair" + 1 :=
  ((usage_increment_on_success 0 (freshSession 0) 1 "repair" none true ⟨some 1⟩
      rfl).1 ⟨by decide, by decide⟩).1

/-! ## Payment capture and code registry theorems -/

/-- C7: the capture handler rejects with PaymentNotCompleted whenever
the reported status differs from the exact string COMPLETED; with a
completed status it rejects with InvalidAmount whenever the captured
amount is not string-equal to 2.00; and it succeeds — granting 24
hours of premium and issuing the new code pre-marked used — exactly
when both checks pass. -/
theorem capture_payment_validation (now : Int) (codes : CodeStore) (s : Session)
    (userId orderId payerId : String) (status amount : Option String) (newCode : String) :
    (status ≠ some "COMPLETED" →
      capturePaypalPayment now codes s userId orderId payerId status amount newCode =
        .error .paymentNotCompleted)
    ∧ (status = some "COMPLETED" → amount ≠ some "2.00" →
      capturePaypalPayment now codes s userId orderId payerId status amount newCode =
        .error .invalidAmount)
    ∧ ((∃ out, capturePaypalPayment now codes s userId orderId payerId status amount newCode =
          .ok out
          ∧ out.session.premiumUntil = some (now + 24 * hourMs)
          ∧ lookupCode out.codes newCode =
              some ⟨userId, now, true, none, none, some orderId, some payerId⟩)
        ↔ status = some "COMPLETED" ∧ amount = some "2.00") := by
  refine ⟨fun h1 => ?_, fun h1 h2 => ?_, ⟨fun hok => ?_, fun hpass => ?_⟩⟩
  · unfold capturePaypalPayment
    rw [if_pos h1]
  · unfold capturePaypalPayment
    rw [if_neg (not_not_intro h1), if_pos h2]
  · obtain ⟨out, hout, _, _⟩ := hok
    by_cases h1 : status = some "COMPLETED"
    · by_cases h2 : amount = some "2.00"
      · exact ⟨h1, h2⟩
      · unfold capturePaypalPayment at hout
        rw [if_neg (not_not_intro h1), if_pos h2] at hout
        exact absurd hout (by simp)
    · unfold capturePaypalPayment at hout
      rw [if_pos h1] at hout
      exact absurd hout (by simp)
  · obtain ⟨h1, h2⟩ := hpass
    have hok2 : capturePaypalPayment now codes s userId orderId payerId status amount newCode =
        .ok ⟨{ s with premiumUntil := some (now + 24 * hourMs) },
          (newCode, ⟨userId, now, true, none, none, some orderId, some payerId⟩) :: codes,
          now + 24 * hourMs⟩ := by
      unfold capturePaypalPayment
      rw [if_neg (not_not_intro h1), if_neg (not_not_intro h2)]
    exact ⟨_, hok2, rfl, by unfold lookupCode; rw [if_pos rfl]⟩

/-- Witness for C7: status PENDING is rejected as not completed;
with status COMPLETED the amounts 1.99 and the padded string 2.00
followed by a space are both rejected as invalid even though
numerically close to 2.00, and the exact string 2.00 succeeds. -/
theorem capture_payment_validation_witness :
    capturePaypalPayment 0 [] (freshSession 0) "u" "o" "p" (some "PENDING") (some "2.00") "C" =
      .error .paymentNotCompleted
    ∧ capturePaypalPayment 0 [] (freshSession 0) "u" "o" "p" (some "COMPLETED") (some "1.99") "C" =
      .error .invalidAmount
    ∧ capturePaypalPayment 0 [] (freshSession 0) "u" "o" "p" (some "COMPLETED") (some "2.00 ") "C" =
      .error .invalidAmount
    ∧ ∃ out, capturePaypalPayment 0 [] (freshSession 0) "u" "o" "p" (some "COMPLETED")
          (some "2.00") "C" = .ok out
        ∧ out.session.premiumUntil = some (0 + 24 * hourMs)
        ∧ lookupCode out.codes "C" = some ⟨"u", 0, true, none, none, some "o", some "p"⟩ :=
  ⟨(capture_payment_validation 0 [] (freshSession 0) "u" "o" "p" (some "PENDING")
      (some "2.00") "C").1 (by decide),
   (capture_payment_validation 0 [] (freshSession 0) "u" "o" "p" (some "COMPLETED")
      (some "1.99") "C").2.1 rfl (by decide),
   (capture_payment_validation 0 [] (freshSession 0) "u" "o" "p" (some "COMPLETED")
      (some "2.00 ") "C").2.1 rfl (by decide),
   (capture_payment_validation 0 [] (freshSession 0) "u" "o" "p" (some "COMPLETED")
      (some "2.00") "C").2.2.mpr ⟨rfl, rfl⟩⟩

/-- Lookup on a cons unfolds to a key comparison. -/
theorem lookupCode_cons (x : String × CodeData) (rest : CodeStore) (k : String) :
    lookupCode (x :: rest) k = if x.1 = k then some x.2 else lookupCode rest k := rfl

/-- An in-place entry update never changes which keys are present. -/
theorem lookupCode_updateCode_isSome (key k : String) (f : CodeData → CodeData) :
    ∀ codes : CodeStore, (lookupCode (updateCode codes key f) k).isSome =
      (lookupCode codes k).isSome := by
  intro codes
  induction codes with
  | nil => rfl
  | cons e rest ih =>
    have ih2 := ih
    simp only [updateCode, List.map_cons] at ih2 ⊢
    rw [lookupCode_cons, lookupCode_cons]
    by_cases hkey : e.1 = key
    · rw [if_pos hkey]
      dsimp only
      by_cases hk : e.1 = k
      · rw [if_pos hk, if_pos hk]
        rfl
      · rw [if_neg hk, if_neg hk]
        exact ih2
    · rw [if_neg hkey]
      by_cases hk : e.1 = k
      · rw [if_pos hk, if_pos hk]
      · rw [if_neg hk, if_neg hk]
        exact ih2

/-- Activating a recognized code succeeds, sets the session's expiry
to 24 hours from now, and preserves the registry's key set. -/
theorem activate_recognized (now : Int) (codes : CodeStore) (u : String) (s : Session)
    (code : String) (h : recognizedCode codes code = true) :
    (activatePremiumCode now codes u s code).1 = .ok (now + 24 * hourMs)
    ∧ (activatePremiumCode now codes u s code).2.1.premiumUntil = some (now + 24 * hourMs)
    ∧ ∀ k, (lookupCode (activatePremiumCode now codes u s code).2.2 k).isSome =
        (lookupCode codes k).isSome := by
  have hcond : (validCodes.contains (normalizeCode code) ||
      (lookupCode codes (normalizeCode code)).isSome) = true := h
  unfold activatePremiumCode
  dsimp only
  rw [if_pos hcond]
  refine ⟨rfl, rfl, fun k => ?_⟩
  dsimp only
  split
  · exact lookupCode_updateCode_isSome (normalizeCode code) k _ codes
  · rfl

/-- Recognition survives an activation (the registry entry is updated
in place, never removed). -/
theorem recognizedCode_after_activate (now : Int) (codes : CodeStore) (u : String)
    (s : Session) (code code2 : String) :
    recognizedCode (activatePremiumCode now codes u s code2).2.2 code =
      recognizedCode codes code := by
  unfold activatePremiumCode
  dsimp only
  split
  · dsimp only
    split
    · unfold recognizedCode
      rw [lookupCode_updateCode_isSome]
    · rfl
  · rfl

/-- C8: redeeming a recognized premium code never removes it from the
registry; two successive redemptions of the same code by two different
sessions both succeed, and each redeeming session ends with
premiumUntil set to 24 hours past its own redemption time. -/
theorem code_multi_redeemable (now1 now2 : Int) (codes : CodeStore)
    (s1 s2 : Session) (u1 u2 code : String)
    (h : recognizedCode codes code = true) :
    (activatePremiumCode now1 codes u1 s1 code).1 = .ok (now1 + 24 * hourMs)
    ∧ (activatePremiumCode now1 codes u1 s1 code).2.1.premiumUntil =
        some (now1 + 24 * hourMs)
    ∧ (∀ k, (lookupCode (activatePremiumCode now1 codes u1 s1 code).2.2 k).isSome =
        (lookupCode codes k).isSome)
    ∧ recognizedCode (activatePremiumCode now1 codes u1 s1 code).2.2 code = true
    ∧ (activatePremiumCode now2 (activatePremiumCode now1 codes u1 s1 code).2.2
        u2 s2 code).1 = .ok (now2 + 24 * hourMs)
    ∧ (activatePremiumCode now2 (activatePremiumCode now1 codes u1 s1 code).2.2
        u2 s2 code).2.1.premiumUntil = some (now2 + 24 * hourMs) := by
  obtain ⟨h1, h2, h3⟩ := activate_recognized now1 codes u1 s1 code h
  have hrec : recognizedCode (activatePremiumCode now1 codes u1 s1 code).2.2 code = true := by
    rw [recognizedCode_after_activate now1 codes u1 s1 code code]
    exact h
  obtain ⟨h4, h5, _⟩ := activate_recognized now2 _ u2 s2 code hrec
  exact ⟨h1, h2, h3, hrec, h4, h5⟩

/-- Witness for C8: the predefined demo code DEMO2024, submitted in
lower case with padding, is redeemed twice by two different fresh
sessions at times 0 and 1000. -/
theorem code_multi_redeemable_witness :
    (activatePremiumCode 0 [] "u1" (freshSession 0) " demo2024 ").1 = .ok (0 + 24 * hourMs)
    ∧ (activatePremiumCode 0 [] "u1" (freshSession 0) " demo2024 ").2.1.premiumUntil =
        some (0 + 24 * hourMs)
    ∧ (∀ k, (lookupCode (activatePremiumCode 0 [] "u1" (freshSession 0)
        " demo2024 ").2.2 k).isSome = (lookupCode [] k).isSome)
    ∧ recognizedCode (activatePremiumCode 0 [] "u1" (freshSession 0) " demo2024 ").2.2
        " demo2024 " = true
    ∧ (activatePremiumCode 1000 (activatePremiumCode 0 [] "u1" (freshSession 0)
        " demo2024 ").2.2 "u2" (freshSession 500) " demo2024 ").1 = .ok (1000 + 24 * hourMs)
    ∧ (activatePremiumCode 1000 (activatePremiumCode 0 [] "u1" (freshSession 0)
        " demo2024 ").2.2 "u2" (freshSession 500) " demo2024 ").2.1.premiumUntil =
        some (1000 + 24 * hourMs) :=
  code_multi_redeemable 0 1000 [] (freshSession 0) (freshSession 500) "u1" "u2"
    " demo2024 " (by decide)

/-- C9: an unrecognized code — one neither in the predefined demo
allow-list (after uppercasing and trimming) nor in the generated-code
table — is rejected with InvalidCode and leaves both the session and
the registry exactly as they were: the caller gains no premium. -/
theorem invalid_code_rejected (now : Int) (codes : CodeStore) (u : String)
    (s : Session) (code : String) (h : recognizedCode codes code = false) :
    activatePremiumCode now codes u s code = (.error .invalidCode, s, codes) := by
  have hcond : (validCodes.contains (normalizeCode code) ||
      (lookupCode codes (normalizeCode code)).isSome) = false := h
  unfold activatePremiumCode
  dsimp only
  rw [if_neg (by simp only [hcond]; exact Bool.false_ne_true)]

/-- Witness for C9: the code NOTACODE against an empty registry. -/
theorem invalid_code_rejected_witness :
    activatePremiumCode 0 [] "u1" (freshSession 0) "NOTACODE" =
      (.error .invalidCode, freshSession 0, []) :=
  invalid_code_rejected 0 [] "u1" (freshSession 0) "NOTACODE" (by decide)

/-! ## Repair engine theorems -/

/-- The load cascade never reports more fixes than findings. -/
theorem loadWithStrategies_fixed_le (input : RepairInput) (o : LoadOutcome)
    (h : loadWithStrategies input = some o) : o.fixed ≤ o.found := by
  unfold loadWithStrategies at h
  split at h
  · cases h
    exact Nat.le_refl _
  · split at h
    · cases h
      exact Nat.le_refl _
    · split at h
      · cases h
        exact Nat.le_refl _
      · simp at h

/-- The load method reported by the cascade is determined by the first
strategy that succeeds, in the order standard, recovery, careful. -/
theorem loadWithStrategies_method (input : RepairInput) (o : LoadOutcome)
    (h : loadWithStrategies input = some o) :
    o.loadMethod =
      (if input.standardLoadOk then LoadMethod.standard
       else if input.recoveryLoadOk then LoadMethod.recovery
       else LoadMethod.careful) := by
  unfold loadWithStrategies at h
  split at h
  · cases h
    rename_i hs
    rw [if_pos hs]
  · rename_i hs
    split at h
    · cases h
      rename_i hr
      rw [if_neg hs, if_pos hr]
    · rename_i hr
      split at h
      · cases h
        rw [if_neg hs, if_neg hr]
      · simp at h

/-- Each iteration of the page loop fixes at most as many issues as it
finds: an inspectable page's dimension and rotation fixes bump both
counters together, and a throwing page bumps found once while fixed is
bumped at most once (only by a successful premium recreation). -/
theorem repairPage_fixed_le_found (prem : Bool) (i : Nat) (p : PageDesc) :
    (repairPage prem i p).fixed ≤ (repairPage prem i p).found := by
  unfold repairPage
  split
  · split
    · split <;> simp
    · simp
  · dsimp only
    exact Nat.le_refl _

/-- The fold of the page loop preserves the fixes-at-most-findings
bound. -/
theorem repairPages_fixed_le_found (prem : Bool) :
    ∀ (pages : List PageDesc) (i : Nat),
      (repairPages prem i pages).fixed ≤ (repairPages prem i pages).found := by
  intro pages
  induction pages with
  | nil =>
    intro i
    exact Nat.le_refl _
  | cons p rest ih =>
    intro i
    have h1 := repairPage_fixed_le_found prem i p
    have h2 := ih (i + 1)
    unfold repairPages
    dsimp only
    omega

/-- C10: every successful repair reports counters with
issuesFixed at most issuesFound — every increment of the fixed counter
is paired with a prior or simultaneous increment of the found
counter. -/
theorem issuesFixed_le_issuesFound (prem : Bool) (input : RepairInput) (r : RepairResult)
    (h : repairPDFEnhanced prem input = .ok r) :
    r.repairStats.issuesFixed ≤ r.repairStats.issuesFound := by
  unfold repairPDFEnhanced at h
  cases hL : loadWithStrategies input with
  | none =>
    rw [hL] at h
    simp at h
  | some o =>
    rw [hL] at h
    dsimp only at h
    split at h
    · simp at h
    · have ho := loadWithStrategies_fixed_le input o hL
      have hp := repairPages_fixed_le_found prem input.pages 0
      cases h
      dsimp only
      omega

/-- Witness for C10 on a clean one-page document loaded by the
standard strategy: the successful repair reports fixed at most
found. -/
theorem issuesFixed_le_issuesFound_witness :
    (RepairResult.mk [⟨false, 612, 792, 0, false⟩]
        ⟨0, 0, 0, 1, .standard, [.documentContains 1]⟩).repairStats.issuesFixed ≤
      (RepairResult.mk [⟨false, 612, 792, 0, false⟩]
        ⟨0, 0, 0, 1, .standard, [.documentContains 1]⟩).repairStats.issuesFound :=
  issuesFixed_le_issuesFound false
    ⟨true, false, false, none, none, [⟨false, 612, 792, 0, false⟩], true⟩ _ rfl

/-- A page loop over pages whose inspection always throws contributes
zero to validPages, whatever the tier and the recreation outcomes. -/
theorem repairPages_valid_of_all_broken (prem : Bool) :
    ∀ (pages : List PageDesc) (i : Nat), (∀ p ∈ pages, p.broken = true) →
      (repairPages prem i pages).valid = 0 := by
  intro pages
  induction pages with
  | nil =>
    intro i _
    rfl
  | cons p rest ih =>
    intro i hall
    have hp : (repairPage prem i p).valid = 0 := by
      unfold repairPage
      rw [if_pos (hall p (List.mem_cons_self p rest))]
      split
      · split <;> rfl
      · rfl
    have hr := ih (i + 1) (fun q hq => hall q (List.mem_cons_of_mem p hq))
    unfold repairPages
    dsimp only
    omega

/-- C4 counterexample: the claim says that under premium tier, when
every per-page recreation succeeds, a document whose every page throws
during inspection is repaired with pagesRepaired equal to totalPages;
the code instead aborts with NoValidPages, because recreated pages are
never counted into validPages. -/
theorem premium_recreation_counterexample :
    repairPDFEnhanced true
      ⟨true, false, false, none, none,
        [⟨true, 612, 792, 0, false⟩, ⟨true, 612, 792, 0, false⟩], true⟩ =
      .error .noValidPages := rfl

/-- C4 as amended: on a loaded document where every page throws during
inspection, the repair fails with NoValidPages under both tiers — the
premium recreation path bumps the fixed and repaired counters but
never marks a page valid, so zero pages survive validation even when
every recreation succeeds. -/
theorem all_broken_pages_noValidPages (prem : Bool) (input : RepairInput) (o : LoadOutcome)
    (hload : loadWithStrategies input = some o)
    (hall : ∀ p ∈ input.pages, p.broken = true) :
    repairPDFEnhanced prem input = .error .noValidPages := by
  unfold repairPDFEnhanced
  rw [hload]
  dsimp only
  rw [if_pos (repairPages_valid_of_all_broken prem input.pages 0 hall)]

/-- Witness for C4 as amended: a two-page document with every page
throwing, loaded by the standard strategy, fails with NoValidPages
under the free tier and under premium with recreations succeeding. -/
theorem all_broken_pages_noValidPages_witness :
    repairPDFEnhanced false
      ⟨true, false, false, none, none,
        [⟨true, 1, 1, 0, false⟩, ⟨true, 1, 1, 0, false⟩], true⟩ =
      .error .noValidPages
    ∧ repairPDFEnhanced true
      ⟨true, false, false, none, none,
        [⟨true, 1, 1, 0, false⟩, ⟨true, 1, 1, 0, false⟩], true⟩ =
      .error .noValidPages :=
  ⟨all_broken_pages_noValidPages false _ ⟨.standard, [], 0, 0⟩ rfl (by decide),
   all_broken_pages_noValidPages true _ ⟨.standard, [], 0, 0⟩ rfl (by decide)⟩

/-- C5: the repair engine tries the load strategies in the fixed order
standard, recovery, careful; the first that succeeds determines the
reported loadMethod, and when all three fail the whole repair aborts
with SeverelyCorrupted, producing no repaired document. -/
theorem load_strategy_order (prem : Bool) (input : RepairInput) :
    (∀ r, repairPDFEnhanced prem input = .ok r →
      r.repairStats.loadMethod =
        (if input.standardLoadOk then LoadMethod.standard
         else if input.recoveryLoadOk then LoadMethod.recovery
         else LoadMethod.careful))
    ∧ (input.standardLoadOk = false → input.recoveryLoadOk = false →
        input.carefulLoadOk = false →
        repairPDFEnhanced prem input = .error .severelyCorrupted) := by
  constructor
  · intro r hr
    unfold repairPDFEnhanced at hr
    cases hL : loadWithStrategies input with
    | none =>
      rw [hL] at hr
      simp at hr
    | some o =>
      rw [hL] at hr
      dsimp only at hr
      split at hr
      · simp at hr
      · cases hr
        exact loadWithStrategies_method input o hL
  · intro h1 h2 h3
    unfold repairPDFEnhanced loadWithStrategies
    rw [h1, h2, h3]
    simp

/-- Witness for C5: with all three strategies failing the repair
aborts with SeverelyCorrupted, and on a clean document loaded in
recovery mode the reported loadMethod is recovery. -/
theorem load_strategy_order_witness :
    repairPDFEnhanced false
      ⟨false, false, false, none, none, [⟨false, 612, 792, 0, false⟩], true⟩ =
      .error .severelyCorrupted
    ∧ (RepairResult.mk [⟨false, 612, 792, 0, false⟩]
        ⟨1, 1, 0, 1, .recovery,
          [.standardLoadingFailed, .loadedRecoveryMode, .documentContains 1]⟩).repairStats.loadMethod =
      (if false then LoadMethod.standard
       else if true then LoadMethod.recovery else LoadMethod.careful) :=
  ⟨(load_strategy_order false
      ⟨false, false, false, none, none, [⟨false, 612, 792, 0, false⟩], true⟩).2 rfl rfl rfl,
   (load_strategy_order false
      ⟨false, true, false, none, none, [⟨false, 612, 792, 0, false⟩], true⟩).1 _ rfl⟩

/-- The rotation normalization is the nearest multiple of 90: the
result is a multiple of 90 at distance at most 45 from the original
angle. -/
theorem jsRound90_nearest (a : Int) :
    jsRound90 a % 90 = 0 ∧ |a - jsRound90 a| ≤ 45 := by
  unfold jsRound90
  refine ⟨Int.mul_emod_left _ _, ?_⟩
  rw [abs_le]
  omega

/-- C6: a page whose inspection succeeds, whose dimensions are sane,
and whose rotation is not a multiple of 90 has its rotation set to the
nearest multiple of 90, with exactly one found issue, one fixed issue,
one repaired page, and one log line recorded for that rotation; a page
whose rotation is already a multiple of 90 is left unchanged with no
issue logged.  The normalized angle is a multiple of 90 within 45
degrees of the original. -/
theorem rotation_normalization (prem : Bool) (i : Nat) (p : PageDesc)
    (hb : p.broken = false) (hw : 0 < p.width) (hw2 : p.width ≤ 14400)
    (hh : 0 < p.height) (hh2 : p.height ≤ 14400) :
    (p.rotation % 90 ≠ 0 →
      repairPage prem i p =
        ⟨1, 1, 1, 1, [.fixedRotation (i + 1) p.rotation (jsRound90 p.rotation)],
          [⟨false, p.width, p.height, jsRound90 p.rotation, p.recreateFails⟩]⟩)
    ∧ (p.rotation % 90 = 0 →
      repairPage prem i p =
        ⟨0, 0, 0, 1, [], [⟨false, p.width, p.height, p.rotation, p.recreateFails⟩]⟩)
    ∧ jsRound90 p.rotation % 90 = 0
    ∧ |p.rotation - jsRound90 p.rotation| ≤ 45 := by
  have hwb : (decide (p.width ≤ 0) || decide (14400 < p.width)) = false := by
    simp only [Bool.or_eq_false_iff, decide_eq_false_iff_not]
    omega
  have hhb : (decide (p.height ≤ 0) || decide (14400 < p.height)) = false := by
    simp only [Bool.or_eq_false_iff, decide_eq_false_iff_not]
    omega
  obtain ⟨hn1, hn2⟩ := jsRound90_nearest p.rotation
  refine ⟨fun hrot => ?_, fun hrot => ?_, hn1, hn2⟩
  · unfold repairPage
    rw [if_neg (by simp [hb])]
    simp only [hwb, hhb, Bool.or_self, Bool.false_or, if_false,
      decide_eq_true_eq, hrot, decide_eq_true (show p.rotation % 90 ≠ 0 from hrot)]
    simp [hrot]
  · unfold repairPage
    rw [if_neg (by simp [hb])]
    simp only [hwb, hhb, Bool.or_self, Bool.false_or, if_false]
    simp [hrot]

/-- Witness for C6: a page rotated 45 degrees is normalized to 90 (the
nearest multiple of 90, ties rounding up) with exactly one logged
fixed issue, and a page rotated 90 degrees is left unchanged with
nothing logged. -/
theorem rotation_normalization_witness :
    repairPage false 0 ⟨false, 612, 792, 45, false⟩ =
      ⟨1, 1, 1, 1, [.fixedRotation 1 45 (jsRound90 45)], [⟨false, 612, 792, jsRound90 45, false⟩]⟩
    ∧ jsRound90 45 = 90
    ∧ repairPage false 0 ⟨false, 612, 792, 90, false⟩ =
      ⟨0, 0, 0, 1, [], [⟨false, 612, 792, 90, false⟩]⟩ :=
  ⟨(rotation_normalization false 0 ⟨false, 612, 792, 45, false⟩ rfl (by decide) (by decide)
      (by decide) (by decide)).1 (by decide),
   by decide,
   (rotation_normalization false 0 ⟨false, 612, 792, 90, false⟩ rfl (by decide) (by decide)
      (by decide) (by decide)).2.1 (by decide)⟩

end PdfTools
